import Mathlib

/-!
# Backend Process Supervisor — verification of `src/electron/main.js`

Shallow embedding of the Electron main-process backend supervisor of the
Horus repository.  The supervisor keeps a mutable `backendStatus`
(`'checking' | 'running' | 'starting' | 'stopped' | 'error'`) and a mutable
`backendProcess` handle, probes `http://127.0.0.1:5000/api/market/price/BTC`,
resolves a backend installation directory, spawns `python app.py`, and
emits `backend-status` events to the renderer.

The model below translates each function of `main.js` into a pure Lean
function over an explicit supervisor state.  Asynchronous callbacks
(HTTP response / error / timeout, process `close`) are modelled by passing
the observed outcome in explicitly.  The main window is modelled as open,
so every `updateBackendStatus` call appends a status event.  Spawn and
kill invocations are counted in the state so that "the Launcher is
invoked" and "the process is signaled" are observable.
-/

namespace Horus

/-- The five values the mutable `backendStatus` variable ranges over
(`main.js` line 9: `checking, running, starting, stopped, error`). -/
inductive Status where
  | checking
  | running
  | starting
  | stopped
  | error
  deriving DecidableEq, Repr

/-- Outcome of one HTTP probe request, as observed by the callbacks
registered in `checkBackendStatus` / `verifyBackendRunning`: either a
response with a status code arrived within the 2000 ms timeout, or the
`error` callback fired (connection refused etc.), or the `timeout`
callback fired. -/
inductive ProbeResult where
  | response (statusCode : Nat)
  | connError
  | timeout
  deriving DecidableEq, Repr

/-- The three IPC commands of the control surface
(`start-backend`, `stop-backend`, `check-backend`). -/
inductive Command where
  | checkBackend
  | startBackend
  | stopBackend
  deriving DecidableEq, Repr

/-- Supervisor state: the two mutable globals of `main.js`
(`backendStatus`, `backendProcess`) plus the observable history —
the list of emitted `backend-status` events (status, message) in order,
the number of `spawn` invocations and the number of `kill` signals sent. -/
structure SupState where
  backendStatus : Status
  backendProcess : Bool
  events : List (Status × String)
  spawns : Nat
  kills : Nat
  deriving DecidableEq, Repr

/-- Initial state: `backendStatus = 'checking'`, `backendProcess = null`,
nothing observed yet. -/
def initState : SupState :=
  { backendStatus := Status.checking
    backendProcess := false
    events := []
    spawns := 0
    kills := 0 }

/-- The platform-specific base directories used by `findBackendPath`:
`process.resourcesPath`, `__dirname`, `app.getPath('downloads')`,
`app.getPath('home')`, `app.getPath('userData')`. -/
structure Paths where
  resourcesPath : String
  dirname : String
  downloads : String
  home : String
  userData : String
  deriving DecidableEq, Repr

/-- The candidate list of `findBackendPath`, in source order
(`main.js` lines 105–117): resources, development `../backend`,
Downloads, home, userData — each joined with `backend`. -/
def possiblePaths (p : Paths) : List String :=
  [ p.resourcesPath ++ "/backend"
  , p.dirname ++ "/../backend"
  , p.downloads ++ "/backend"
  , p.home ++ "/backend"
  , p.userData ++ "/backend" ]

/-- `findBackendPath()` (`main.js` lines 104–125): return the first
candidate directory containing `app.py`, else `null`.  The filesystem is
modelled as the predicate `fs : String → Bool` standing for
`fs.existsSync`. -/
def findBackendPath (fs : String → Bool) (p : Paths) : Option String :=
  (possiblePaths p).find? (fun backendPath => fs (backendPath ++ "/app.py"))

/-- The environment one command executes against: the probe outcome the
HTTP request will observe, the filesystem, the platform paths, and
whether the `spawn` call succeeds or throws (with the thrown message). -/
structure Env where
  probe : ProbeResult
  fs : String → Bool
  paths : Paths
  spawnOk : Bool
  spawnErrMsg : String

/-- `updateBackendStatus(status, message)` (`main.js` lines 236–248):
assign the global and send a `backend-status` event to the renderer
(the window is modelled as open, so the event is always sent). -/
def updateBackendStatus (st : SupState) (status : Status) (message : String) : SupState :=
  { st with
    backendStatus := status
    events := st.events ++ [(status, message)] }

/-- The error message of the not-found branch of `attemptStartBackend`. -/
def notFoundMsg : String :=
  "Backend not found. Please ensure the backend folder is installed."

/-- `attemptStartBackend()` (`main.js` lines 128–203).  Re-entrancy
guard: a no-op when already `'starting'`.  Otherwise resolve the backend
path; on `null` go to `'error'` with `notFoundMsg`; else emit
`'starting'` and invoke `spawn` (counted in `spawns`).  A successful
spawn installs the process handle; a synchronous throw is caught and
reported as `'error'`. -/
def attemptStartBackend (env : Env) (st : SupState) : SupState :=
  if st.backendStatus = Status.starting then st
  else
    match findBackendPath env.fs env.paths with
    | none => updateBackendStatus st Status.error notFoundMsg
    | some _ =>
      let st1 := updateBackendStatus st Status.starting ""
      let st2 := { st1 with spawns := st1.spawns + 1 }
      if env.spawnOk then
        { st2 with backendProcess := true }
      else
        updateBackendStatus st2 Status.error
          ("Error starting backend: " ++ env.spawnErrMsg)

/-- The liveness acceptance test shared by `checkBackendStatus` and
`verifyBackendRunning`: a response arrived and
`res.statusCode === 200 || res.statusCode === 404`. -/
def probeAccepts (r : ProbeResult) : Bool :=
  match r with
  | ProbeResult.response code => code == 200 || code == 404
  | ProbeResult.connError => false
  | ProbeResult.timeout => false

/-- `checkBackendStatus()` (`main.js` lines 71–101): probe the backend;
a 200 or 404 response means `'running'`; any other status code, a
connection error, or a timeout falls through to `attemptStartBackend`. -/
def checkBackendStatus (env : Env) (st : SupState) : SupState :=
  match env.probe with
  | ProbeResult.response code =>
    if code == 200 || code == 404 then
      updateBackendStatus st Status.running ""
    else
      attemptStartBackend env st
  | ProbeResult.connError => attemptStartBackend env st
  | ProbeResult.timeout => attemptStartBackend env st

/-- `verifyBackendRunning()` (`main.js` lines 206–233): the delayed
(3000 ms) re-probe after a spawn.  200/404 means `'running'`; any other
status code, a connection error or a timeout each produce a distinct
`'error'` message; the child process is never touched. -/
def verifyBackendRunning (env : Env) (st : SupState) : SupState :=
  match env.probe with
  | ProbeResult.response code =>
    if code == 200 || code == 404 then
      updateBackendStatus st Status.running ""
    else
      updateBackendStatus st Status.error "Backend started but not responding correctly"
  | ProbeResult.connError =>
    updateBackendStatus st Status.error "Backend process started but HTTP endpoint not available"
  | ProbeResult.timeout =>
    updateBackendStatus st Status.error "Backend timeout"

/-- The `backendProcess.on('close')` handler (`main.js` lines 181–187):
clear the handle; unless the status is `'stopped'`, report
`'error'` with the exit code interpolated into the message. -/
def onClose (code : Int) (st : SupState) : SupState :=
  let st1 := { st with backendProcess := false }
  if st1.backendStatus ≠ Status.stopped then
    updateBackendStatus st1 Status.error ("Backend exited with code " ++ toString code)
  else st1

/-- The `ipcMain.on('start-backend')` handler (`main.js` lines 251–255):
`attemptStartBackend` unless already `'running'`. -/
def startBackend (env : Env) (st : SupState) : SupState :=
  if st.backendStatus ≠ Status.running then attemptStartBackend env st else st

/-- The `ipcMain.on('stop-backend')` handler (`main.js` lines 257–263):
if a handle is owned, set `'stopped'` (emitting the event first), send
`kill()` to the child, and clear the handle; otherwise do nothing. -/
def stopBackend (st : SupState) : SupState :=
  if st.backendProcess then
    let st1 := updateBackendStatus st Status.stopped ""
    { st1 with kills := st1.kills + 1, backendProcess := false }
  else st

/-- One IPC command processed against environment `env`. -/
def step (env : Env) (st : SupState) : Command → SupState
  | Command.checkBackend => checkBackendStatus env st
  | Command.startBackend => startBackend env st
  | Command.stopBackend => stopBackend st

/-- A sequence of IPC commands, each with its own environment. -/
def runCmds (cs : List (Command × Env)) (st : SupState) : SupState :=
  cs.foldl (fun s p => step p.2 s p.1) st

/-- The spec's error taxonomy (§7), as a classification of the concrete
error messages `main.js` produces. -/
inductive ErrorClass where
  | notFoundError
  | spawnError
  | unreachableError
  | unexpectedExitError
  | otherError
  deriving DecidableEq, Repr

/-- Classify a concrete `'error'`-status message into the spec's §7
taxonomy, by the branch of `main.js` that produces it. -/
def classifyError (msg : String) : ErrorClass :=
  if msg = notFoundMsg then ErrorClass.notFoundError
  else if msg = "Backend started but not responding correctly" then ErrorClass.unreachableError
  else if msg = "Backend process started but HTTP endpoint not available" then ErrorClass.unreachableError
  else if msg = "Backend timeout" then ErrorClass.unreachableError
  else if String.startsWith msg "Backend exited with code " then ErrorClass.unexpectedExitError
  else if String.startsWith msg "Error starting backend: " then ErrorClass.spawnError
  else if String.startsWith msg "Failed to start backend: " then ErrorClass.spawnError
  else ErrorClass.otherError

/-- The candidate order C3 asserts (claim wording): downloads, home,
resources, development checkout — four candidates only.  Kept for
comparison against the source's `possiblePaths`. -/
def claimCandidates (p : Paths) : List String :=
  [ p.downloads ++ "/backend"
  , p.home ++ "/backend"
  , p.resourcesPath ++ "/backend"
  , p.dirname ++ "/../backend" ]

/-- The resolver C3 describes: first of `claimCandidates` containing
`app.py`.  Written from the claim's words, to be compared with
`findBackendPath`. -/
def claimFindBackendPath (fs : String → Bool) (p : Paths) : Option String :=
  (claimCandidates p).find? (fun backendPath => fs (backendPath ++ "/app.py"))

/-! ## Concrete fixtures used by counterexamples and witnesses -/

/-- A concrete set of platform paths for concrete evaluations. -/
def pathsW : Paths :=
  { resourcesPath := "/res"
    dirname := "/app/electron"
    downloads := "/home/u/Downloads"
    home := "/home/u"
    userData := "/ud" }

/-- A filesystem with no `app.py` anywhere. -/
def fsNone : String → Bool := fun _ => false

/-- A filesystem with `app.py` both under the resources candidate and the
Downloads candidate. -/
def fsBoth : String → Bool := fun s =>
  s == "/res/backend/app.py" || s == "/home/u/Downloads/backend/app.py"

/-- A filesystem with `app.py` only under the resources candidate. -/
def fsRes : String → Bool := fun s => s == "/res/backend/app.py"

/-- An environment whose probe sees a connection error and whose
resolver would find the resources install. -/
def envDown : Env :=
  { probe := ProbeResult.connError
    fs := fsRes
    paths := pathsW
    spawnOk := true
    spawnErrMsg := "" }

/-- An environment whose probe sees an HTTP 200 response. -/
def envUp : Env :=
  { probe := ProbeResult.response 200
    fs := fsRes
    paths := pathsW
    spawnOk := true
    spawnErrMsg := "" }

/-- An environment whose probe sees an HTTP 500 response. -/
def envFiveHundred : Env :=
  { probe := ProbeResult.response 500
    fs := fsRes
    paths := pathsW
    spawnOk := true
    spawnErrMsg := "" }

/-- An environment whose probe sees a connection error and whose
filesystem has no backend install at all. -/
def envNoInstall : Env :=
  { probe := ProbeResult.connError
    fs := fsNone
    paths := pathsW
    spawnOk := true
    spawnErrMsg := "" }

/-- A state in the middle of a launch attempt (`'starting'`, one spawn
already in flight). -/
def stStarting : SupState :=
  { backendStatus := Status.starting
    backendProcess := true
    events := [(Status.starting, "")]
    spawns := 1
    kills := 0 }

/-- A `'running'` state owning a ServiceHandle. -/
def stRunOwned : SupState :=
  { backendStatus := Status.running
    backendProcess := true
    events := []
    spawns := 1
    kills := 0 }

/-- A `'running'` state with no owned handle (external instance). -/
def stRunExternal : SupState :=
  { backendStatus := Status.running
    backendProcess := false
    events := []
    spawns := 0
    kills := 0 }

/-- An `'error'` state with no handle. -/
def stError : SupState :=
  { backendStatus := Status.error
    backendProcess := false
    events := []
    spawns := 0
    kills := 0 }

/-! ## Helper lemmas -/

/-- While `'starting'`, one `check-backend` or `start-backend` command
whose probe does not accept is a complete no-op. -/
theorem step_starting_eq (env : Env) (st : SupState) (c : Command)
    (hst : st.backendStatus = Status.starting)
    (hc : c ≠ Command.stopBackend)
    (hp : probeAccepts env.probe = false) :
    step env st c = st := by
  have hguard : attemptStartBackend env st = st := by
    unfold attemptStartBackend
    simp [hst]
  cases c with
  | checkBackend =>
    unfold step checkBackendStatus
    cases hpr : env.probe with
    | response code =>
      have : (code == 200 || code == 404) = false := by
        have := hp
        rw [probeAccepts.eq_def, hpr] at this
        exact this
      simp [this, hguard]
    | connError => simp [hguard]
    | timeout => simp [hguard]
  | startBackend =>
    unfold step startBackend
    rw [hst]
    simp [hguard]
  | stopBackend => exact absurd rfl hc

/-! ## C1 — single-flight invariant -/

/-- C1: while the supervisor state is `'starting'` (so every probe in
the sequence still fails, which is what keeps the state `'starting'` as
each command arrives), any sequence of `check-backend` / `start-backend`
commands causes no further Launcher invocation: the spawn count is
unchanged and the state is still `'starting'`. -/
theorem singleFlight (cs : List (Command × Env)) (st : SupState)
    (hst : st.backendStatus = Status.starting)
    (hcs : ∀ p ∈ cs, p.1 = Command.checkBackend ∨ p.1 = Command.startBackend)
    (hp : ∀ p ∈ cs, probeAccepts p.2.probe = false) :
    (runCmds cs st).spawns = st.spawns ∧
    (runCmds cs st).backendStatus = Status.starting := by
  induction cs generalizing st with
  | nil => exact ⟨rfl, hst⟩
  | cons hd tl ih =>
    have hhd : hd.1 = Command.checkBackend ∨ hd.1 = Command.startBackend :=
      hcs hd (List.mem_cons_self hd tl)
    have hne : hd.1 ≠ Command.stopBackend := by
      rcases hhd with h | h <;> simp [h]
    have hstep : step hd.2 st hd.1 = st :=
      step_starting_eq hd.2 st hd.1 hst hne (hp hd (List.mem_cons_self hd tl))
    have : runCmds (hd :: tl) st = runCmds tl st := by
      unfold runCmds
      simp [List.foldl_cons, hstep]
    rw [this]
    exact ih st hst (fun p hp2 => hcs p (List.mem_cons_of_mem hd hp2))
      (fun p hp2 => hp p (List.mem_cons_of_mem hd hp2))

/-- C1 witness: from a concrete `'starting'` state, a concrete
check-check-start command sequence leaves the spawn count at 1 and the
state `'starting'`. -/
theorem singleFlight_witness :
    (runCmds [(Command.checkBackend, envDown), (Command.checkBackend, envDown),
              (Command.startBackend, envDown)] stStarting).spawns = stStarting.spawns ∧
    (runCmds [(Command.checkBackend, envDown), (Command.checkBackend, envDown),
              (Command.startBackend, envDown)] stStarting).backendStatus = Status.starting :=
  singleFlight _ stStarting rfl (by decide) (by decide)

/-! ## C2 — probe liveness classification -/

/-- C2 counterexample: an HTTP 500 response received within the timeout
is NOT classified as liveness proof.  From a concrete `'checking'` state,
the check ends in `'starting'` (not `'running'`) and the Launcher IS
invoked (spawn count 1), refuting "regardless of its status code ...
transitions to `running` without invoking the Launcher". -/
theorem probeClassification_cex :
    (checkBackendStatus envFiveHundred initState).backendStatus ≠ Status.running ∧
    (checkBackendStatus envFiveHundred initState).spawns = 1 := by
  constructor
  · decide
  · decide

/-- C2 amended: in state `'checking'`, a probe response transitions to
`'running'` without Launcher invocation exactly when its status code is
200 or 404; a response with any other status code is treated like a
connection failure and falls through to `attemptStartBackend`. -/
theorem probeClassification (env : Env) (st : SupState) (code : Nat)
    (hpr : env.probe = ProbeResult.response code)
    (hst : st.backendStatus = Status.checking) :
    (code = 200 ∨ code = 404 →
      checkBackendStatus env st = updateBackendStatus st Status.running "" ∧
      (checkBackendStatus env st).spawns = st.spawns) ∧
    (code ≠ 200 → code ≠ 404 →
      checkBackendStatus env st = attemptStartBackend env st) := by
  constructor
  · intro h
    have hb : (code == 200 || code == 404) = true := by
      rcases h with h | h <;> simp [h]
    unfold checkBackendStatus
    rw [hpr]
    simp [hb, updateBackendStatus]
  · intro h2 h4
    have hb : (code == 200 || code == 404) = false := by
      simp [h2, h4]
    unfold checkBackendStatus
    rw [hpr]
    simp [hb]

/-- C2 witness: at status code 200 the probe accepts and no spawn
happens; the hypotheses are discharged at `envUp` and `initState`. -/
theorem probeClassification_witness :
    checkBackendStatus envUp initState = updateBackendStatus initState Status.running "" ∧
    (checkBackendStatus envUp initState).spawns = initState.spawns :=
  (probeClassification envUp initState 200 rfl rfl).1 (Or.inl rfl)

/-! ## C3 — Path Resolver order -/

/-- C3 counterexample: with `app.py` present both under the Downloads
candidate and the resources candidate, the source resolver returns the
resources candidate first, while the claimed order (Downloads first)
would return the Downloads candidate — the two resolvers disagree. -/
theorem resolverOrder_cex :
    findBackendPath fsBoth pathsW = some "/res/backend" ∧
    claimFindBackendPath fsBoth pathsW = some "/home/u/Downloads/backend" ∧
    findBackendPath fsBoth pathsW ≠ claimFindBackendPath fsBoth pathsW := by
  refine ⟨by decide, by decide, by decide⟩

/-- C3 amended: the resolver checks, in order, (1) the packaged
resources directory, (2) the development checkout `../backend`, (3) the
Downloads folder, (4) the home folder, (5) the `userData` folder — each
joined with `backend` — and returns the first containing `app.py`, or
NotFound (`none`) exactly when no candidate contains it. -/
theorem resolverOrder (fs : String → Bool) (p : Paths) :
    (findBackendPath fs p =
      if fs (p.resourcesPath ++ "/backend" ++ "/app.py") then some (p.resourcesPath ++ "/backend")
      else if fs (p.dirname ++ "/../backend" ++ "/app.py") then some (p.dirname ++ "/../backend")
      else if fs (p.downloads ++ "/backend" ++ "/app.py") then some (p.downloads ++ "/backend")
      else if fs (p.home ++ "/backend" ++ "/app.py") then some (p.home ++ "/backend")
      else if fs (p.userData ++ "/backend" ++ "/app.py") then some (p.userData ++ "/backend")
      else none) ∧
    (findBackendPath fs p = none ↔
      ∀ bp ∈ possiblePaths p, fs (bp ++ "/app.py") = false) := by
  constructor
  · unfold findBackendPath possiblePaths
    simp only [List.find?]
    rcases h1 : fs (p.resourcesPath ++ "/backend" ++ "/app.py") <;>
      rcases h2 : fs (p.dirname ++ "/../backend" ++ "/app.py") <;>
        rcases h3 : fs (p.downloads ++ "/backend" ++ "/app.py") <;>
          rcases h4 : fs (p.home ++ "/backend" ++ "/app.py") <;>
            rcases h5 : fs (p.userData ++ "/backend" ++ "/app.py") <;>
              simp [h1, h2, h3, h4, h5]
  · unfold findBackendPath
    rw [List.find?_eq_none]
    constructor
    · intro h bp hbp
      have := h bp hbp
      simpa using this
    · intro h bp hbp
      simp [h bp hbp]

/-! ## C4 — NotFound path -/

/-- C4: in state `'checking'`, when the probe does not accept and no
candidate directory contains `app.py`, the check ends in `'error'`, the
only event emitted is the `'error'` event carrying `notFoundMsg`
(classified `NotFoundError`) — so the run never passes through
`'starting'` — and the Launcher is never invoked (spawn count
unchanged). -/
theorem notFoundPath (env : Env) (st : SupState)
    (hst : st.backendStatus = Status.checking)
    (hp : probeAccepts env.probe = false)
    (hnf : findBackendPath env.fs env.paths = none) :
    (checkBackendStatus env st).backendStatus = Status.error ∧
    (checkBackendStatus env st).events = st.events ++ [(Status.error, notFoundMsg)] ∧
    classifyError notFoundMsg = ErrorClass.notFoundError ∧
    (checkBackendStatus env st).spawns = st.spawns := by
  have hguard : attemptStartBackend env st =
      updateBackendStatus st Status.error notFoundMsg := by
    unfold attemptStartBackend
    rw [hst]
    simp [hnf]
  have hchk : checkBackendStatus env st = updateBackendStatus st Status.error notFoundMsg := by
    unfold checkBackendStatus
    cases hpr : env.probe with
    | response code =>
      have hb : (code == 200 || code == 404) = false := by
        have := hp
        rw [probeAccepts.eq_def, hpr] at this
        exact this
      simp [hb, hguard]
    | connError => simp [hguard]
    | timeout => simp [hguard]
  rw [hchk]
  refine ⟨rfl, rfl, by decide, rfl⟩

/-- C4 witness: from the initial `'checking'` state with an unreachable
probe and an empty filesystem, the concrete run lands in `'error'` with
the not-found message and zero spawns. -/
theorem notFoundPath_witness :
    (checkBackendStatus envNoInstall initState).backendStatus = Status.error ∧
    (checkBackendStatus envNoInstall initState).events =
      initState.events ++ [(Status.error, notFoundMsg)] ∧
    classifyError notFoundMsg = ErrorClass.notFoundError ∧
    (checkBackendStatus envNoInstall initState).spawns = initState.spawns :=
  notFoundPath envNoInstall initState rfl rfl (by decide)

/-! ## C5 — stop semantics -/

/-- C5: a `stop-backend` command with an owned handle emits the
`'stopped'` event, sends exactly one kill signal to the child, and
releases the handle; a `stop-backend` command with no owned handle is a
complete no-op — in particular no process is ever signaled. -/
theorem stopSemantics (st : SupState) :
    (st.backendProcess = true →
      stopBackend st =
        { st with
          backendStatus := Status.stopped
          events := st.events ++ [(Status.stopped, "")]
          kills := st.kills + 1
          backendProcess := false }) ∧
    (st.backendProcess = false → stopBackend st = st) := by
  constructor
  · intro h
    unfold stopBackend
    simp [h, updateBackendStatus]
  · intro h
    unfold stopBackend
    simp [h]

/-- C5 witness: at a concrete owned `'running'` state the stop kills and
stops; at a concrete external `'running'` state it is a no-op. -/
theorem stopSemantics_witness :
    stopBackend stRunOwned =
      { stRunOwned with
        backendStatus := Status.stopped
        events := stRunOwned.events ++ [(Status.stopped, "")]
        kills := stRunOwned.kills + 1
        backendProcess := false } ∧
    stopBackend stRunExternal = stRunExternal :=
  ⟨(stopSemantics stRunOwned).1 rfl, (stopSemantics stRunExternal).2 rfl⟩

/-! ## C6 — post-launch probe failure -/

/-- C6: whenever the delayed re-probe after a spawn does not accept
(non-200/404 status, connection error, or timeout), the state becomes
`'error'` with a single new event whose message classifies as
`UnreachableError`, and the child process is not touched: the handle is
unchanged and no kill signal is sent. -/
theorem postLaunchUnreachable (env : Env) (st : SupState)
    (hp : probeAccepts env.probe = false) :
    (verifyBackendRunning env st).backendStatus = Status.error ∧
    (verifyBackendRunning env st).backendProcess = st.backendProcess ∧
    (verifyBackendRunning env st).kills = st.kills ∧
    ∃ m, (verifyBackendRunning env st).events = st.events ++ [(Status.error, m)] ∧
      classifyError m = ErrorClass.unreachableError := by
  unfold verifyBackendRunning
  cases hpr : env.probe with
  | response code =>
    have hb : (code == 200 || code == 404) = false := by
      have := hp
      rw [probeAccepts.eq_def, hpr] at this
      exact this
    simp only [hb, Bool.false_eq_true, if_false]
    exact ⟨rfl, rfl, rfl, "Backend started but not responding correctly", rfl, by decide⟩
  | connError =>
    exact ⟨rfl, rfl, rfl, "Backend process started but HTTP endpoint not available",
      rfl, by decide⟩
  | timeout =>
    exact ⟨rfl, rfl, rfl, "Backend timeout", rfl, by decide⟩

/-- C6 witness: a concrete re-probe connection error from the
`'starting'` state with an owned handle reaches `'error'`, keeps the
handle, and sends no kill. -/
theorem postLaunchUnreachable_witness :
    (verifyBackendRunning envDown stStarting).backendStatus = Status.error ∧
    (verifyBackendRunning envDown stStarting).backendProcess = stStarting.backendProcess ∧
    (verifyBackendRunning envDown stStarting).kills = stStarting.kills ∧
    ∃ m, (verifyBackendRunning envDown stStarting).events =
        stStarting.events ++ [(Status.error, m)] ∧
      classifyError m = ErrorClass.unreachableError :=
  postLaunchUnreachable envDown stStarting rfl

/-! ## C7 — unexpected exit -/

/-- C7: when an owned child process closes while the status is
`'running'`, the supervisor clears the handle and transitions directly to
`'error'` with the exit code interpolated into the message. -/
theorem unexpectedExit (st : SupState) (code : Int)
    (hst : st.backendStatus = Status.running) :
    onClose code st =
      { st with
        backendProcess := false
        backendStatus := Status.error
        events := st.events ++ [(Status.error, "Backend exited with code " ++ toString code)] } := by
  unfold onClose
  rw [hst]
  simp [updateBackendStatus]

/-- C7 witness: a concrete close with exit code 1 from the owned
`'running'` state. -/
theorem unexpectedExit_witness :
    onClose 1 stRunOwned =
      { stRunOwned with
        backendProcess := false
        backendStatus := Status.error
        events := stRunOwned.events ++
          [(Status.error, "Backend exited with code " ++ toString (1 : Int))] } :=
  unexpectedExit stRunOwned 1 rfl

/-! ## C8 — error re-entry -/

/-- Helper: `attemptStartBackend` from any non-`'starting'` state appends
at least one event and never emits a `'checking'` event. -/
theorem attemptStart_events (env : Env) (st : SupState)
    (hst : st.backendStatus ≠ Status.starting) :
    ∃ es, es ≠ [] ∧ (attemptStartBackend env st).events = st.events ++ es ∧
      ∀ e ∈ es, e.1 ≠ Status.checking := by
  unfold attemptStartBackend
  rw [if_neg hst]
  cases hnf : findBackendPath env.fs env.paths with
  | none =>
    refine ⟨[(Status.error, notFoundMsg)], by simp, by simp [updateBackendStatus], ?_⟩
    intro e he
    simp only [List.mem_singleton] at he
    subst he
    decide
  | some bp =>
    by_cases hok : env.spawnOk = true
    · refine ⟨[(Status.starting, "")], by simp, ?_, ?_⟩
      · simp [hok, updateBackendStatus]
      · intro e he
        simp only [List.mem_singleton] at he
        subst he
        decide
    · refine ⟨[(Status.starting, ""),
        (Status.error, "Error starting backend: " ++ env.spawnErrMsg)], by simp, ?_, ?_⟩
      · simp [hok, updateBackendStatus]
      · intro e he
        simp only [List.mem_cons, List.mem_singleton, List.not_mem_nil, or_false] at he
        rcases he with he | he <;> subst he <;> simp

/-- C8 counterexample: from a concrete `'error'` state, a
`check-backend` whose probe answers 200 emits `'running'` as the next
(and only) status event, and a `start-backend` with an installed backend
emits `'starting'` — in neither case is `'checking'` the next emitted
status, refuting "the `checking` state is observable as the next emitted
status". -/
theorem errorReentry_cex :
    (step envUp stError Command.checkBackend).events = [(Status.running, "")] ∧
    (step envDown stError Command.startBackend).events = [(Status.starting, "")] ∧
    Status.running ≠ Status.checking ∧
    Status.starting ≠ Status.checking := by
  refine ⟨by decide, by decide, by decide, by decide⟩

/-- C8 amended: from state `'error'`, a `check-backend` or
`start-backend` command does re-enter the probe/resolve/launch logic —
it is not a no-op: at least one new status event is appended — but the
internal status is never set back to `'checking'` and no `'checking'`
event is ever emitted; the next observable status is directly the
outcome (`'running'`, `'starting'`, or `'error'`). -/
theorem errorReentry (env : Env) (st : SupState) (c : Command)
    (hst : st.backendStatus = Status.error)
    (hc : c = Command.checkBackend ∨ c = Command.startBackend) :
    ∃ es, es ≠ [] ∧ (step env st c).events = st.events ++ es ∧
      ∀ e ∈ es, e.1 ≠ Status.checking := by
  have hns : st.backendStatus ≠ Status.starting := by
    rw [hst]
    decide
  rcases hc with hc | hc <;> subst hc
  · show ∃ es, es ≠ [] ∧ (checkBackendStatus env st).events = st.events ++ es ∧
      ∀ e ∈ es, e.1 ≠ Status.checking
    unfold checkBackendStatus
    cases hpr : env.probe with
    | response code =>
      cases hb : (code == 200 || code == 404) with
      | true =>
        simp only [hb, if_true]
        refine ⟨[(Status.running, "")], by simp, by simp [updateBackendStatus], ?_⟩
        intro e he
        simp only [List.mem_singleton] at he
        subst he
        decide
      | false =>
        simp only [hb, Bool.false_eq_true, if_false]
        exact attemptStart_events env st hns
    | connError => exact attemptStart_events env st hns
    | timeout => exact attemptStart_events env st hns
  · have hsb : startBackend env st = attemptStartBackend env st := by
      unfold startBackend
      rw [hst]
      simp
    show ∃ es, es ≠ [] ∧ (startBackend env st).events = st.events ++ es ∧
      ∀ e ∈ es, e.1 ≠ Status.checking
    rw [hsb]
    exact attemptStart_events env st hns

/-- C8 witness: at the concrete `'error'` state with an unreachable
probe and no install, `check-backend` appends a non-`'checking'` event
list. -/
theorem errorReentry_witness :
    ∃ es, es ≠ [] ∧
      (step envNoInstall stError Command.checkBackend).events = stError.events ++ es ∧
      ∀ e ∈ es, e.1 ≠ Status.checking :=
  errorReentry envNoInstall stError Command.checkBackend rfl (Or.inl rfl)

/-! ## C9 — duplicate-event suppression -/

/-- C9 counterexample: a probe answered with 200 while the state is
already `'running'` emits a fresh `'running'` StatusEvent — the event
list grows — refuting "no new status event is emitted". -/
theorem dupSuppression_cex :
    (checkBackendStatus envUp stRunExternal).events =
      stRunExternal.events ++ [(Status.running, "")] ∧
    (checkBackendStatus envUp stRunExternal).events ≠ stRunExternal.events := by
  refine ⟨by decide, by decide⟩

/-- C9 amended: `updateBackendStatus` emits unconditionally, so a probe
performed while the state is already `'running'` whose result is
accepted re-emits a duplicate `'running'` StatusEvent — running-to-
running transitions are NOT suppressed. -/
theorem runningReprobeEmits (env : Env) (st : SupState)
    (hst : st.backendStatus = Status.running)
    (hp : probeAccepts env.probe = true) :
    checkBackendStatus env st = updateBackendStatus st Status.running "" ∧
    (checkBackendStatus env st).events = st.events ++ [(Status.running, "")] := by
  have h1 : checkBackendStatus env st = updateBackendStatus st Status.running "" := by
    unfold checkBackendStatus
    cases hpr : env.probe with
    | response code =>
      have hb : (code == 200 || code == 404) = true := by
        have := hp
        rw [probeAccepts.eq_def, hpr] at this
        exact this
      simp [hb]
    | connError =>
      rw [probeAccepts.eq_def, hpr] at hp
      simp at hp
    | timeout =>
      rw [probeAccepts.eq_def, hpr] at hp
      simp at hp
  refine ⟨h1, ?_⟩
  rw [h1]
  rfl

/-- C9 witness: the concrete owned `'running'` state re-probed with a
200 response gains a duplicate `'running'` event. -/
theorem runningReprobeEmits_witness :
    checkBackendStatus envUp stRunOwned = updateBackendStatus stRunOwned Status.running "" ∧
    (checkBackendStatus envUp stRunOwned).events =
      stRunOwned.events ++ [(Status.running, "")] :=
  runningReprobeEmits envUp stRunOwned rfl rfl

/-! ## C10 — commanded stop is never reported as unexpected exit -/

/-- C10: the `stop-backend` handler sets `'stopped'` before killing, so
when the killed child's `close` notification later fires, the status is
`'stopped'` and the close handler emits nothing: no `'error'` event is
produced for a commanded stop, and the status stays `'stopped'`. -/
theorem commandedStopNoError (st : SupState) (code : Int)
    (hp : st.backendProcess = true) :
    (stopBackend st).backendStatus = Status.stopped ∧
    (onClose code (stopBackend st)).events = (stopBackend st).events ∧
    (onClose code (stopBackend st)).backendStatus = Status.stopped := by
  have h1 : stopBackend st =
      { st with
        backendStatus := Status.stopped
        events := st.events ++ [(Status.stopped, "")]
        kills := st.kills + 1
        backendProcess := false } := by
    unfold stopBackend
    simp [hp, updateBackendStatus]
  rw [h1]
  unfold onClose
  simp

/-- C10 witness: at the concrete owned `'running'` state, stop then
close (exit code 0) emits no further event and the status stays
`'stopped'`. -/
theorem commandedStopNoError_witness :
    (stopBackend stRunOwned).backendStatus = Status.stopped ∧
    (onClose 0 (stopBackend stRunOwned)).events = (stopBackend stRunOwned).events ∧
    (onClose 0 (stopBackend stRunOwned)).backendStatus = Status.stopped :=
  commandedStopNoError stRunOwned 0 rfl

end Horus
